import Mathlib

/-!
Verification of the waste-fee manager core (TypeScript tRPC handlers) via a
shallow embedding. The database is modelled as an explicit record of rows,
each handler as a pure function from database state and input to either an
error (the message thrown by the handler) or the new state together with the
returned entity. Timestamps (new Date()) are passed in as an explicit
parameter. The numeric column for payment amounts, stored as a decimal
string in the database and converted with toString / parseFloat at the
handler boundary, is modelled by its digit sequences.
-/

namespace WasteFee

/-- Role of a user, from the users table role column: warga (citizen) or
admin_kelurahan (neighborhood admin). -/
inductive Role where
  | warga
  | admin_kelurahan
  deriving DecidableEq

/-- A row of the users table, fields as in the TypeScript User type. -/
structure User where
  id : Nat
  username : String
  password_hash : String
  role : Role
  full_name : String
  nik : String
  no_kk : String
  home_address : String
  rt : String
  created_at : Nat
  updated_at : Nat
  deriving DecidableEq

/-- Model of the decimal string stored in the numeric amount column: the
whole part before the decimal point (a Nat, in canonical bijection with its
digit string) and the digits written after the decimal point, in written
order (zero, one or two of them). -/
structure DecimalStr where
  whole : Nat
  frac : List Nat
  deriving DecidableEq

/-- Model of JavaScript Number.prototype.toString applied to an amount of c
cents (a positive number with at most two decimal places): the shortest
decimal representation, dropping the point and trailing zeros of the
fractional part. -/
def amountToDec (c : Nat) : DecimalStr :=
  { whole := c / 100
    frac :=
      if c % 100 = 0 then []
      else if c % 100 % 10 = 0 then [c % 100 / 10]
      else [c % 100 / 10, c % 100 % 10] }

/-- Model of parseFloat on the stored decimal string, read back to two-decimal
precision, i.e. in cents. -/
def parseDecCents (d : DecimalStr) : Nat :=
  d.whole * 100 +
    (match d.frac with
     | [] => 0
     | [a] => a * 10
     | a :: b :: _ => a * 10 + b)

/-- A row of the payments table. The amount column is numeric, stored via
input.amount.toString(), hence kept here in its decimal-string model. -/
structure Payment where
  id : Nat
  user_id : Nat
  amount : DecimalStr
  payment_date : Nat
  month : Nat
  year : Nat
  receipt_photo_url : Option String
  recorded_by_admin_id : Nat
  created_at : Nat
  updated_at : Nat
  deriving DecidableEq

/-- The Payment value returned by the handlers: the stored row with the
amount converted back to a number by parseFloat. -/
structure PaymentOut where
  id : Nat
  user_id : Nat
  amount : Nat
  payment_date : Nat
  month : Nat
  year : Nat
  receipt_photo_url : Option String
  recorded_by_admin_id : Nat
  created_at : Nat
  updated_at : Nat
  deriving DecidableEq

/-- Conversion applied by every handler that returns payments: spread the row
and replace amount by parseFloat of the stored string. -/
def Payment.toOut (p : Payment) : PaymentOut :=
  { id := p.id
    user_id := p.user_id
    amount := parseDecCents p.amount
    payment_date := p.payment_date
    month := p.month
    year := p.year
    receipt_photo_url := p.receipt_photo_url
    recorded_by_admin_id := p.recorded_by_admin_id
    created_at := p.created_at
    updated_at := p.updated_at }

/-- Dispute status enum: pending, approved, rejected. -/
inductive DStatus where
  | pending
  | approved
  | rejected
  deriving DecidableEq

/-- A row of the disputes table. -/
structure Dispute where
  id : Nat
  payment_id : Nat
  user_id : Nat
  dispute_reason : String
  evidence_photo_url : Option String
  status : DStatus
  admin_response : Option String
  resolved_by_admin_id : Option Nat
  created_at : Nat
  updated_at : Nat
  deriving DecidableEq

/-- The database state: the three tables, plus the next serial ids handed
out by inserts into payments and disputes. -/
structure DB where
  users : List User
  payments : List Payment
  disputes : List Dispute
  nextPaymentId : Nat
  nextDisputeId : Nat
  deriving DecidableEq

/-! Handler inputs. Optional fields of a partial update are modelled with an
outer Option for presence (none = the key was absent, i.e. undefined) and,
for nullable columns, an inner Option for null. -/

/-- Input of resolveDispute: dispute id, new status, nullable admin_response,
and the resolving admin id. -/
structure ResolveDisputeInput where
  id : Nat
  status : DStatus
  admin_response : Option String
  resolved_by_admin_id : Nat
  deriving DecidableEq

/-- Input of createDispute. The handler reads payment_id, user_id,
dispute_reason and evidence_photo_url. The last three fields model
extraneous caller-supplied resolution values; the insert statement never
reads them (it hard-codes status pending and leaves admin_response and
resolved_by_admin_id to their null defaults). Modelled from the spec: the
zod input schema (schema.ts) is not among the provided sources, and the
spec states these values are ignored regardless of what the caller sends. -/
structure CreateDisputeInput where
  payment_id : Nat
  user_id : Nat
  dispute_reason : String
  evidence_photo_url : Option String
  status : Option DStatus
  admin_response : Option String
  resolved_by_admin_id : Option Nat
  deriving DecidableEq

/-- Input of createPayment. The amount, a positive number with at most two
decimal places, is carried in cents. -/
structure CreatePaymentInput where
  user_id : Nat
  amount : Nat
  payment_date : Nat
  month : Nat
  year : Nat
  receipt_photo_url : Option String
  recorded_by_admin_id : Nat
  deriving DecidableEq

/-- Input of updatePayment: id plus five optional fields, each updated only
when present (the !== undefined checks); receipt_photo_url is additionally
nullable, so present-and-null is distinct from absent. -/
structure UpdatePaymentInput where
  id : Nat
  amount : Option Nat
  payment_date : Option Nat
  month : Option Nat
  year : Option Nat
  receipt_photo_url : Option (Option String)
  deriving DecidableEq

/-- Input of getUserPayments: user id with optional year and month filters. -/
structure GetUserPaymentsInput where
  user_id : Nat
  year : Option Nat
  month : Option Nat
  deriving DecidableEq

/-- Input of loginUser. -/
structure LoginInput where
  username : String
  password : String
  deriving DecidableEq

/-- Modelled from the spec: Bun.password.hash is an external library function
(password hashing is explicitly out of scope of the core); it is modelled as
an injective tagging of the password, so that verification succeeds exactly
on the password that was hashed. -/
def pwHash (password : String) : String :=
  String.mk ('#' :: password.data)

/-- Modelled from the spec: Bun.password.verify checks a password against a
stored hash and succeeds exactly when the hash is the hash of the password. -/
def pwVerify (password hash : String) : Bool :=
  hash == pwHash password

/-- Embedding of loginUser (src/unnamed/part_000): select the first user with
exactly the given username, verify the password against the stored hash, and
on success return the user record, password_hash included. -/
def loginUser (users : List User) (input : LoginInput) : Option User :=
  match users.find? (fun u => u.username == input.username) with
  | none => none
  | some user =>
    if pwVerify input.password user.password_hash then
      some { id := user.id
             username := user.username
             password_hash := user.password_hash
             role := user.role
             full_name := user.full_name
             nik := user.nik
             no_kk := user.no_kk
             home_address := user.home_address
             rt := user.rt
             created_at := user.created_at
             updated_at := user.updated_at }
    else none

/-- The field overwrite performed by the update statement of resolveDispute:
set status, admin_response, resolved_by_admin_id and updated_at. -/
def resolveUpd (input : ResolveDisputeInput) (now : Nat) (d : Dispute) : Dispute :=
  { d with
    status := input.status
    admin_response := input.admin_response
    resolved_by_admin_id := some input.resolved_by_admin_id
    updated_at := now }

/-- Embedding of resolveDispute (src/server/src/handlers/resolve_dispute.ts):
look up the admin user, check its role, look up the dispute, then update the
dispute row and return it. -/
def resolveDispute (db : DB) (input : ResolveDisputeInput) (now : Nat) :
    Except String (DB × Dispute) :=
  match db.users.find? (fun u => u.id == input.resolved_by_admin_id) with
  | none => .error "Admin user not found"
  | some admin =>
    if admin.role ≠ Role.admin_kelurahan then
      .error "User is not authorized to resolve disputes"
    else
      match db.disputes.find? (fun d => d.id == input.id) with
      | none => .error "Dispute not found"
      | some d =>
        .ok ({ db with
               disputes := db.disputes.map
                 (fun x => if x.id == input.id then resolveUpd input now x else x) },
             resolveUpd input now d)

/-- State reached by a resolveDispute call: the new state on success, the
old state when the handler throws before its update statement. -/
def execResolveDispute (db : DB) (input : ResolveDisputeInput) (now : Nat) : DB :=
  match resolveDispute db input now with
  | .ok (db', _) => db'
  | .error _ => db

/-- The dispute row inserted by createDispute: the values clause hard-codes
status pending and never mentions admin_response or resolved_by_admin_id,
which therefore take their null column defaults. -/
def newDispute (db : DB) (input : CreateDisputeInput) (now : Nat) : Dispute :=
  { id := db.nextDisputeId
    payment_id := input.payment_id
    user_id := input.user_id
    dispute_reason := input.dispute_reason
    evidence_photo_url := input.evidence_photo_url
    status := DStatus.pending
    admin_response := none
    resolved_by_admin_id := none
    created_at := now
    updated_at := now }

/-- Embedding of createDispute (src/server/src/handlers/create_dispute.ts):
look up the payment, check it belongs to the given user, then insert a new
dispute with status pending and null resolution fields. -/
def createDispute (db : DB) (input : CreateDisputeInput) (now : Nat) :
    Except String (DB × Dispute) :=
  match db.payments.find? (fun p => p.id == input.payment_id) with
  | none => .error "Payment not found"
  | some payment =>
    if payment.user_id ≠ input.user_id then
      .error "Payment does not belong to this user"
    else
      .ok ({ db with
             disputes := db.disputes ++ [newDispute db input now]
             nextDisputeId := db.nextDisputeId + 1 },
           newDispute db input now)

/-- State reached by a createDispute call: unchanged when the handler throws
before its insert statement. -/
def execCreateDispute (db : DB) (input : CreateDisputeInput) (now : Nat) : DB :=
  match createDispute db input now with
  | .ok (db', _) => db'
  | .error _ => db

/-- The payment row inserted by createPayment: the amount is stored via
input.amount.toString(), the timestamps default to now. -/
def newPayment (db : DB) (input : CreatePaymentInput) (now : Nat) : Payment :=
  { id := db.nextPaymentId
    user_id := input.user_id
    amount := amountToDec input.amount
    payment_date := input.payment_date
    month := input.month
    year := input.year
    receipt_photo_url := input.receipt_photo_url
    recorded_by_admin_id := input.recorded_by_admin_id
    created_at := now
    updated_at := now }

/-- Embedding of createPayment (the implemented handler at
src/server/src/handlers/get_all_disputes.ts lines 57-109): check citizen and
admin exist and the admin role, insert the payment with the amount stored as
a decimal string, and return it with the amount parsed back. -/
def createPayment (db : DB) (input : CreatePaymentInput) (now : Nat) :
    Except String (DB × PaymentOut) :=
  match db.users.find? (fun u => u.id == input.user_id) with
  | none => .error ("User with ID " ++ toString input.user_id ++ " not found")
  | some _ =>
    match db.users.find? (fun u => u.id == input.recorded_by_admin_id) with
    | none => .error ("Admin with ID " ++ toString input.recorded_by_admin_id ++ " not found")
    | some admin =>
      if admin.role ≠ Role.admin_kelurahan then
        .error ("User with ID " ++ toString input.recorded_by_admin_id ++ " is not an admin")
      else
        .ok ({ db with
               payments := db.payments ++ [newPayment db input now]
               nextPaymentId := db.nextPaymentId + 1 },
             (newPayment db input now).toOut)

/-- The field overwrite performed by the update statement of updatePayment:
updated_at always set to now, each of the five optional fields overwritten
only when present in the input (the !== undefined checks in the source);
amount converted by toString. -/
def applyPaymentUpdate (input : UpdatePaymentInput) (now : Nat) (p : Payment) : Payment :=
  { p with
    updated_at := now
    amount := match input.amount with
      | none => p.amount
      | some a => amountToDec a
    payment_date := match input.payment_date with
      | none => p.payment_date
      | some v => v
    month := match input.month with
      | none => p.month
      | some v => v
    year := match input.year with
      | none => p.year
      | some v => v
    receipt_photo_url := match input.receipt_photo_url with
      | none => p.receipt_photo_url
      | some v => v }

/-- Embedding of updatePayment (src/unnamed/part_001): check the payment
exists, then update only the provided fields and return the updated row with
the amount parsed back. -/
def updatePayment (db : DB) (input : UpdatePaymentInput) (now : Nat) :
    Except String (DB × PaymentOut) :=
  match db.payments.find? (fun p => p.id == input.id) with
  | none => .error "Payment not found"
  | some p =>
    .ok ({ db with
           payments := db.payments.map
             (fun x => if x.id == input.id then applyPaymentUpdate input now x else x) },
         (applyPaymentUpdate input now p).toOut)

/-- Embedding of getUserPayments (src/server/src/handlers/get_user_payments.ts):
conjunction of an equality filter on user_id with optional equality filters on
year and month, amounts parsed back to numbers. -/
def getUserPayments (db : DB) (input : GetUserPaymentsInput) : List PaymentOut :=
  (db.payments.filter (fun p =>
      p.user_id == input.user_id
      && (match input.year with
          | none => true
          | some y => p.year == y)
      && (match input.month with
          | none => true
          | some m => p.month == m))).map Payment.toOut

/-- Embedding of getAllPayments (src/server/src/handlers/get_all_payments.ts):
select every payment row, amounts parsed back to numbers. -/
def getAllPayments (db : DB) : List PaymentOut :=
  db.payments.map Payment.toOut

/-- Embedding of getAllDisputes (src/server/src/handlers/get_all_disputes.ts):
select disputes inner-joined with the users and payments tables, projected
back to the dispute columns. Under primary-key uniqueness a dispute row
appears exactly when a user row with its user_id and a payment row with its
payment_id exist. -/
def getAllDisputes (db : DB) : List Dispute :=
  db.disputes.filter (fun d =>
    db.users.any (fun u => u.id == d.user_id)
    && db.payments.any (fun p => p.id == d.payment_id))

/-! Concrete sample data, used to instantiate the theorems below. -/

/-- An empty database. -/
def emptyDB : DB :=
  { users := [], payments := [], disputes := [], nextPaymentId := 1, nextDisputeId := 1 }

/-- A sample admin user. -/
def sampleAdmin : User :=
  { id := 1, username := "adm", password_hash := pwHash "secret7", role := Role.admin_kelurahan
    full_name := "A", nik := "1111222233334444", no_kk := "1111222233334444"
    home_address := "a", rt := "001", created_at := 0, updated_at := 0 }

/-- A sample citizen user. -/
def sampleCitizen : User :=
  { id := 2, username := "alice", password_hash := pwHash "warga123", role := Role.warga
    full_name := "C", nik := "5555666677778888", no_kk := "5555666677778888"
    home_address := "c", rt := "002", created_at := 0, updated_at := 0 }

/-- A sample payment owned by the sample citizen. -/
def samplePayment : Payment :=
  { id := 10, user_id := 2, amount := amountToDec 5000000, payment_date := 1
    month := 1, year := 2024, receipt_photo_url := some "r"
    recorded_by_admin_id := 1, created_at := 0, updated_at := 0 }

/-- A sample pending dispute on the sample payment. -/
def sampleDispute : Dispute :=
  { id := 20, payment_id := 10, user_id := 2, dispute_reason := "amount wrong"
    evidence_photo_url := none, status := DStatus.pending, admin_response := none
    resolved_by_admin_id := none, created_at := 0, updated_at := 0 }

/-- A sample populated database. -/
def sampleDB : DB :=
  { users := [sampleAdmin, sampleCitizen], payments := [samplePayment]
    disputes := [sampleDispute], nextPaymentId := 11, nextDisputeId := 21 }

/-! Shared helper lemmas. -/

/-- The decimal-string round trip: parseFloat of the stored toString of an
amount of c cents gives back c cents. -/
theorem parseDecCents_amountToDec (c : Nat) : parseDecCents (amountToDec c) = c := by
  unfold amountToDec parseDecCents
  by_cases h0 : c % 100 = 0
  · simp only [h0, if_true, eq_self_iff_true]
    omega
  · by_cases h1 : c % 100 % 10 = 0
    · simp only [if_neg h0, if_pos h1]
      omega
    · simp only [if_neg h0, if_neg h1]
      omega

/-- Updating the elements of a list that satisfy a predicate, with an update
that preserves the predicate, maps find? through the update. -/
theorem find?_map_upd {α : Type} (p : α → Bool) (f : α → α)
    (hf : ∀ x, p (f x) = p x) :
    ∀ (l : List α) (d : α), l.find? p = some d →
      (l.map (fun x => if p x then f x else x)).find? p = some (f d) := by
  intro l
  induction l with
  | nil => intro d h; simp at h
  | cons a t ih =>
    intro d h
    by_cases ha : p a
    · rw [List.find?_cons_of_pos t ha] at h
      injection h with h
      subst h
      have hmap : (a :: t).map (fun x => if p x then f x else x)
          = f a :: t.map (fun x => if p x then f x else x) := by
        simp [ha]
      rw [hmap]
      exact List.find?_cons_of_pos _ (by rw [hf]; exact ha)
    · rw [List.find?_cons_of_neg t ha] at h
      have hmap : (a :: t).map (fun x => if p x then f x else x)
          = a :: t.map (fun x => if p x then f x else x) := by
        simp [ha]
      rw [hmap, List.find?_cons_of_neg _ ha]
      exact ih d h

/-- When the admin exists with the admin role and the dispute exists,
resolveDispute succeeds, updating exactly the rows whose id matches and
returning the updated dispute. -/
theorem resolveDispute_ok (db : DB) (input : ResolveDisputeInput) (now : Nat)
    (admin : User) (d : Dispute)
    (h1 : db.users.find? (fun u => u.id == input.resolved_by_admin_id) = some admin)
    (h2 : admin.role = Role.admin_kelurahan)
    (h3 : db.disputes.find? (fun x => x.id == input.id) = some d) :
    resolveDispute db input now =
      Except.ok
        ({ db with
           disputes := db.disputes.map
             (fun x => if x.id == input.id then resolveUpd input now x else x) },
         resolveUpd input now d) := by
  simp [resolveDispute, h1, h2, h3]

/-- Two strings with the same character data are equal. -/
theorem string_data_inj {s t : String} (h : s.data = t.data) : s = t := by
  cases s
  cases t
  exact congrArg String.mk h

/-- The modelled password hash is injective, so verification of a password
against the hash of another succeeds exactly when they are equal. -/
theorem pwHash_inj {p q : String} (h : pwHash p = pwHash q) : p = q := by
  have hd : '#' :: p.data = '#' :: q.data := congrArg String.data h
  have hpq : p.data = q.data := by injection hd
  exact string_data_inj hpq

/-- Verification against a stored hash succeeds exactly on the password that
was hashed. -/
theorem pwVerify_pwHash_iff (pw q : String) : pwVerify pw (pwHash q) = true ↔ pw = q := by
  unfold pwVerify
  rw [beq_iff_eq]
  exact ⟨fun h => (pwHash_inj h).symm, fun h => by rw [h]⟩

/-- A login with a password that is not the one whose hash is stored for the
matched user returns null. -/
theorem loginUser_none_of_wrong_password
    (users : List User) (input : LoginInput) (u : User) (q : String)
    (hf : users.find? (fun x => x.username == input.username) = some u)
    (hh : u.password_hash = pwHash q) (hne : input.password ≠ q) :
    loginUser users input = none := by
  have hv : pwVerify input.password u.password_hash = false := by
    rw [hh]
    cases hb : pwVerify input.password (pwHash q) with
    | false => rfl
    | true => exact absurd ((pwVerify_pwHash_iff input.password q).mp hb) hne
  simp [loginUser, hf, hv]

/-- A login with a username matching no stored user returns null. -/
theorem loginUser_none_of_no_user
    (users : List User) (input : LoginInput)
    (h : ∀ u ∈ users, u.username ≠ input.username) :
    loginUser users input = none := by
  have hf : users.find? (fun x => x.username == input.username) = none :=
    List.find?_eq_none.mpr (fun x hx => by simpa using h x hx)
  simp [loginUser, hf]

/-- C1: resolveDispute checks its preconditions in order, each with its own
failure: a missing resolved_by_admin_id user fails with the admin-user
not-found error; an existing user without the admin role fails with the
authorization error; a missing dispute fails with the dispute not-found
error; and in every failure case the database, hence the stored dispute if
any, is left completely unchanged. -/
theorem resolveDispute_precheck_chain (db : DB) (input : ResolveDisputeInput) (now : Nat) :
    (db.users.find? (fun u => u.id == input.resolved_by_admin_id) = none →
      resolveDispute db input now = Except.error "Admin user not found"
        ∧ execResolveDispute db input now = db)
    ∧ (∀ admin : User,
        db.users.find? (fun u => u.id == input.resolved_by_admin_id) = some admin →
        admin.role ≠ Role.admin_kelurahan →
        resolveDispute db input now = Except.error "User is not authorized to resolve disputes"
          ∧ execResolveDispute db input now = db)
    ∧ (∀ admin : User,
        db.users.find? (fun u => u.id == input.resolved_by_admin_id) = some admin →
        admin.role = Role.admin_kelurahan →
        db.disputes.find? (fun d => d.id == input.id) = none →
        resolveDispute db input now = Except.error "Dispute not found"
          ∧ execResolveDispute db input now = db) := by
  refine ⟨?_, ?_, ?_⟩
  · intro h
    have he : resolveDispute db input now = Except.error "Admin user not found" := by
      simp [resolveDispute, h]
    exact ⟨he, by simp [execResolveDispute, he]⟩
  · intro admin h hr
    have he : resolveDispute db input now
        = Except.error "User is not authorized to resolve disputes" := by
      simp [resolveDispute, h, hr]
    exact ⟨he, by simp [execResolveDispute, he]⟩
  · intro admin h hr hd
    have he : resolveDispute db input now = Except.error "Dispute not found" := by
      simp [resolveDispute, h, hr, hd]
    exact ⟨he, by simp [execResolveDispute, he]⟩

/-- Witness for C1: on the sample database, resolving with an unknown admin
id, with the citizen as resolver, and with an unknown dispute id each fail
with the corresponding error and leave the database unchanged. -/
theorem resolveDispute_precheck_chain_witness :
    (resolveDispute sampleDB ⟨20, DStatus.approved, none, 9⟩ 5
        = Except.error "Admin user not found"
      ∧ execResolveDispute sampleDB ⟨20, DStatus.approved, none, 9⟩ 5 = sampleDB)
    ∧ (resolveDispute sampleDB ⟨20, DStatus.approved, none, 2⟩ 5
        = Except.error "User is not authorized to resolve disputes"
      ∧ execResolveDispute sampleDB ⟨20, DStatus.approved, none, 2⟩ 5 = sampleDB)
    ∧ (resolveDispute sampleDB ⟨99, DStatus.approved, none, 1⟩ 5
        = Except.error "Dispute not found"
      ∧ execResolveDispute sampleDB ⟨99, DStatus.approved, none, 1⟩ 5 = sampleDB) :=
  ⟨(resolveDispute_precheck_chain sampleDB ⟨20, DStatus.approved, none, 9⟩ 5).1 (by decide),
   (resolveDispute_precheck_chain sampleDB ⟨20, DStatus.approved, none, 2⟩ 5).2.1
     sampleCitizen (by decide) (by decide),
   (resolveDispute_precheck_chain sampleDB ⟨99, DStatus.approved, none, 1⟩ 5).2.2
     sampleAdmin (by decide) (by decide) (by decide)⟩

/-- C4: createDispute fails with the payment not-found error when the
payment id does not resolve, and with the ownership error when the payment
exists but belongs to a different user; in both cases the database, hence
the set of disputes, is unchanged. -/
theorem createDispute_precheck (db : DB) (input : CreateDisputeInput) (now : Nat) :
    (db.payments.find? (fun p => p.id == input.payment_id) = none →
      createDispute db input now = Except.error "Payment not found"
        ∧ execCreateDispute db input now = db)
    ∧ (∀ payment : Payment,
        db.payments.find? (fun p => p.id == input.payment_id) = some payment →
        payment.user_id ≠ input.user_id →
        createDispute db input now = Except.error "Payment does not belong to this user"
          ∧ execCreateDispute db input now = db) := by
  refine ⟨?_, ?_⟩
  · intro h
    have he : createDispute db input now = Except.error "Payment not found" := by
      simp [createDispute, h]
    exact ⟨he, by simp [execCreateDispute, he]⟩
  · intro payment h ho
    have he : createDispute db input now
        = Except.error "Payment does not belong to this user" := by
      simp [createDispute, h, ho]
    exact ⟨he, by simp [execCreateDispute, he]⟩

/-- Witness for C4: on the sample database, disputing an unknown payment id
fails with the payment not-found error, and disputing the sample payment as
a different user fails with the ownership error; the database is unchanged
both times. -/
theorem createDispute_precheck_witness :
    (createDispute sampleDB ⟨99, 2, "r", none, none, none, none⟩ 5
        = Except.error "Payment not found"
      ∧ execCreateDispute sampleDB ⟨99, 2, "r", none, none, none, none⟩ 5 = sampleDB)
    ∧ (createDispute sampleDB ⟨10, 1, "r", none, none, none, none⟩ 5
        = Except.error "Payment does not belong to this user"
      ∧ execCreateDispute sampleDB ⟨10, 1, "r", none, none, none, none⟩ 5 = sampleDB) :=
  ⟨(createDispute_precheck sampleDB ⟨99, 2, "r", none, none, none, none⟩ 5).1 (by decide),
   (createDispute_precheck sampleDB ⟨10, 1, "r", none, none, none, none⟩ 5).2
     samplePayment (by decide) (by decide)⟩

/-- C2: a valid resolve call overwrites exactly status, admin_response,
resolved_by_admin_id and updated_at of the dispute, preserves payment_id,
user_id (the citizen), dispute_reason, evidence_photo_url and created_at
verbatim, succeeds with no status guard (the dispute may already be
resolved), and a second valid resolve call on the same dispute succeeds and
leaves the stored status, admin_response and resolved_by_admin_id of the
second call (last-write-wins, no conflict error). -/
theorem resolveDispute_overwrite_lastWriteWins
    (db : DB) (input : ResolveDisputeInput) (now : Nat) (admin : User) (d : Dispute)
    (h1 : db.users.find? (fun u => u.id == input.resolved_by_admin_id) = some admin)
    (h2 : admin.role = Role.admin_kelurahan)
    (h3 : db.disputes.find? (fun x => x.id == input.id) = some d) :
    ∃ db1,
      resolveDispute db input now = Except.ok (db1, resolveUpd input now d)
      ∧ db1.users = db.users
      ∧ db1.payments = db.payments
      ∧ db1.disputes.find? (fun x => x.id == input.id) = some (resolveUpd input now d)
      ∧ (resolveUpd input now d).status = input.status
      ∧ (resolveUpd input now d).admin_response = input.admin_response
      ∧ (resolveUpd input now d).resolved_by_admin_id = some input.resolved_by_admin_id
      ∧ (resolveUpd input now d).updated_at = now
      ∧ (resolveUpd input now d).payment_id = d.payment_id
      ∧ (resolveUpd input now d).user_id = d.user_id
      ∧ (resolveUpd input now d).dispute_reason = d.dispute_reason
      ∧ (resolveUpd input now d).evidence_photo_url = d.evidence_photo_url
      ∧ (resolveUpd input now d).created_at = d.created_at
      ∧ ∀ (input2 : ResolveDisputeInput) (now2 : Nat) (admin2 : User),
          input2.id = input.id →
          db.users.find? (fun u => u.id == input2.resolved_by_admin_id) = some admin2 →
          admin2.role = Role.admin_kelurahan →
          ∃ db2 r2,
            resolveDispute db1 input2 now2 = Except.ok (db2, r2)
            ∧ r2.status = input2.status
            ∧ r2.admin_response = input2.admin_response
            ∧ r2.resolved_by_admin_id = some input2.resolved_by_admin_id
            ∧ db2.disputes.find? (fun x => x.id == input.id) = some r2 := by
  have hfind1 : (db.disputes.map
        (fun x => if x.id == input.id then resolveUpd input now x else x)).find?
        (fun x => x.id == input.id) = some (resolveUpd input now d) :=
    find?_map_upd (fun x => x.id == input.id) (resolveUpd input now)
      (fun x => rfl) db.disputes d h3
  refine ⟨_, resolveDispute_ok db input now admin d h1 h2 h3, rfl, rfl, hfind1,
    rfl, rfl, rfl, rfl, rfl, rfl, rfl, rfl, rfl, ?_⟩
  intro input2 now2 admin2 hid hf2 hr2
  obtain ⟨i2, st2, ar2, rb2⟩ := input2
  change i2 = input.id at hid
  subst hid
  refine ⟨_, _, resolveDispute_ok _ ⟨input.id, st2, ar2, rb2⟩ now2 admin2
    (resolveUpd input now d) hf2 hr2 hfind1, rfl, rfl, rfl, ?_⟩
  exact find?_map_upd (fun x => x.id == input.id)
    (resolveUpd ⟨input.id, st2, ar2, rb2⟩ now2) (fun x => rfl) _ _ hfind1

/-- Witness for C2: on the sample database, approving the sample dispute
succeeds returning its update, and a second call rejecting it also
succeeds with the stored state matching the second call. -/
theorem resolveDispute_overwrite_lastWriteWins_witness :
    ∃ db1,
      resolveDispute sampleDB ⟨20, DStatus.approved, some "ok", 1⟩ 7
          = Except.ok (db1, resolveUpd ⟨20, DStatus.approved, some "ok", 1⟩ 7 sampleDispute)
      ∧ ∃ db2 r2,
          resolveDispute db1 ⟨20, DStatus.rejected, some "no", 1⟩ 8 = Except.ok (db2, r2)
          ∧ r2.status = DStatus.rejected
          ∧ r2.admin_response = some "no"
          ∧ r2.resolved_by_admin_id = some 1
          ∧ db2.disputes.find? (fun x => x.id == 20) = some r2 := by
  obtain ⟨db1, hok, -, -, -, -, -, -, -, -, -, -, -, -, hsecond⟩ :=
    resolveDispute_overwrite_lastWriteWins sampleDB ⟨20, DStatus.approved, some "ok", 1⟩ 7
      sampleAdmin sampleDispute (by decide) rfl (by decide)
  obtain ⟨db2, r2, hok2, hs, ha, hr, hfind⟩ :=
    hsecond ⟨20, DStatus.rejected, some "no", 1⟩ 8 sampleAdmin rfl (by decide) rfl
  exact ⟨db1, hok, db2, r2, hok2, hs, ha, hr, hfind⟩

/-- C3: when the payment exists and belongs to the given user, createDispute
succeeds and the created dispute has status pending and null admin_response
and resolved_by_admin_id, for every input, in particular regardless of any
caller-supplied values of the extraneous resolution fields. -/
theorem createDispute_forces_pending
    (db : DB) (input : CreateDisputeInput) (now : Nat) (payment : Payment)
    (h1 : db.payments.find? (fun p => p.id == input.payment_id) = some payment)
    (h2 : payment.user_id = input.user_id) :
    ∃ db',
      createDispute db input now = Except.ok (db', newDispute db input now)
      ∧ (newDispute db input now).status = DStatus.pending
      ∧ (newDispute db input now).admin_response = none
      ∧ (newDispute db input now).resolved_by_admin_id = none
      ∧ db'.disputes = db.disputes ++ [newDispute db input now] := by
  have hok : createDispute db input now =
      Except.ok ({ db with
                   disputes := db.disputes ++ [newDispute db input now]
                   nextDisputeId := db.nextDisputeId + 1 },
                 newDispute db input now) := by
    simp [createDispute, h1, h2]
  exact ⟨_, hok, rfl, rfl, rfl, rfl⟩

/-- Witness for C3: disputing the sample payment as its owner, with
extraneous caller-supplied resolution values, creates a dispute that is
nevertheless pending with null admin_response and resolved_by_admin_id. -/
theorem createDispute_forces_pending_witness :
    ∃ db',
      createDispute sampleDB ⟨10, 2, "wrong total", some "pic", some DStatus.approved,
          some "granted", some 1⟩ 5
        = Except.ok (db', newDispute sampleDB ⟨10, 2, "wrong total", some "pic",
            some DStatus.approved, some "granted", some 1⟩ 5)
      ∧ (newDispute sampleDB ⟨10, 2, "wrong total", some "pic", some DStatus.approved,
          some "granted", some 1⟩ 5).status = DStatus.pending
      ∧ (newDispute sampleDB ⟨10, 2, "wrong total", some "pic", some DStatus.approved,
          some "granted", some 1⟩ 5).admin_response = none
      ∧ (newDispute sampleDB ⟨10, 2, "wrong total", some "pic", some DStatus.approved,
          some "granted", some 1⟩ 5).resolved_by_admin_id = none := by
  obtain ⟨db', hok, hs, ha, hr, -⟩ :=
    createDispute_forces_pending sampleDB
      ⟨10, 2, "wrong total", some "pic", some DStatus.approved, some "granted", some 1⟩ 5
      samplePayment (by decide) (by decide)
  exact ⟨db', hok, hs, ha, hr⟩

/-- C5: on an existing payment, updatePayment overwrites exactly the fields
present in the input, keeps every absent field at its prior value, always
refreshes updated_at, never alters created_at, the owning citizen id or the
recording admin id, and with an empty partial input changes only
updated_at. -/
theorem updatePayment_partial_frame
    (db : DB) (input : UpdatePaymentInput) (now : Nat) (p : Payment)
    (h : db.payments.find? (fun x => x.id == input.id) = some p) :
    ∃ db',
      updatePayment db input now = Except.ok (db', (applyPaymentUpdate input now p).toOut)
      ∧ db'.payments = db.payments.map
          (fun x => if x.id == input.id then applyPaymentUpdate input now x else x)
      ∧ db'.users = db.users
      ∧ db'.disputes = db.disputes
      ∧ (applyPaymentUpdate input now p).updated_at = now
      ∧ (applyPaymentUpdate input now p).created_at = p.created_at
      ∧ (applyPaymentUpdate input now p).user_id = p.user_id
      ∧ (applyPaymentUpdate input now p).recorded_by_admin_id = p.recorded_by_admin_id
      ∧ (input.amount = none → (applyPaymentUpdate input now p).amount = p.amount)
      ∧ (∀ a, input.amount = some a → (applyPaymentUpdate input now p).amount = amountToDec a)
      ∧ (input.payment_date = none →
          (applyPaymentUpdate input now p).payment_date = p.payment_date)
      ∧ (∀ v, input.payment_date = some v →
          (applyPaymentUpdate input now p).payment_date = v)
      ∧ (input.month = none → (applyPaymentUpdate input now p).month = p.month)
      ∧ (∀ v, input.month = some v → (applyPaymentUpdate input now p).month = v)
      ∧ (input.year = none → (applyPaymentUpdate input now p).year = p.year)
      ∧ (∀ v, input.year = some v → (applyPaymentUpdate input now p).year = v)
      ∧ (input.receipt_photo_url = none →
          (applyPaymentUpdate input now p).receipt_photo_url = p.receipt_photo_url)
      ∧ (input.amount = none → input.payment_date = none → input.month = none →
          input.year = none → input.receipt_photo_url = none →
          applyPaymentUpdate input now p = { p with updated_at := now }) := by
  have hok : updatePayment db input now =
      Except.ok ({ db with
                   payments := db.payments.map
                     (fun x => if x.id == input.id then applyPaymentUpdate input now x else x) },
                 (applyPaymentUpdate input now p).toOut) := by
    simp [updatePayment, h]
  refine ⟨_, hok, rfl, rfl, rfl, rfl, rfl, rfl, rfl,
    ?_, ?_, ?_, ?_, ?_, ?_, ?_, ?_, ?_, ?_⟩
  · intro ha; simp [applyPaymentUpdate, ha]
  · intro a ha; simp [applyPaymentUpdate, ha]
  · intro hv; simp [applyPaymentUpdate, hv]
  · intro v hv; simp [applyPaymentUpdate, hv]
  · intro hv; simp [applyPaymentUpdate, hv]
  · intro v hv; simp [applyPaymentUpdate, hv]
  · intro hv; simp [applyPaymentUpdate, hv]
  · intro v hv; simp [applyPaymentUpdate, hv]
  · intro hv; simp [applyPaymentUpdate, hv]
  · intro h1 h2 h3 h4 h5
    simp [applyPaymentUpdate, h1, h2, h3, h4, h5]

/-- Witness for C5: updating the sample payment with an empty partial input
succeeds and the stored row keeps every field, with only updated_at set to
the new time. -/
theorem updatePayment_partial_frame_witness :
    ∃ db',
      updatePayment sampleDB ⟨10, none, none, none, none, none⟩ 9
          = Except.ok (db',
              (applyPaymentUpdate ⟨10, none, none, none, none, none⟩ 9 samplePayment).toOut)
      ∧ applyPaymentUpdate ⟨10, none, none, none, none, none⟩ 9 samplePayment
          = { samplePayment with updated_at := 9 } := by
  obtain ⟨db', hok, -, -, -, -, -, -, -, -, -, -, -, -, -, -, -, -, hempty⟩ :=
    updatePayment_partial_frame sampleDB ⟨10, none, none, none, none, none⟩ 9
      samplePayment (by decide)
  exact ⟨db', hok, hempty rfl rfl rfl rfl rfl⟩

/-- C6: updatePayment distinguishes an omitted receipt_photo_url from an
explicit null: present-and-null stores null even over a previously non-null
value, present-and-value stores the value, and an omitted field keeps the
prior stored value. -/
theorem updatePayment_receipt_three_way
    (db : DB) (input : UpdatePaymentInput) (now : Nat) (p : Payment)
    (h : db.payments.find? (fun x => x.id == input.id) = some p) :
    ∃ db',
      updatePayment db input now = Except.ok (db', (applyPaymentUpdate input now p).toOut)
      ∧ db'.payments.find? (fun x => x.id == input.id)
          = some (applyPaymentUpdate input now p)
      ∧ (input.receipt_photo_url = some none →
          (applyPaymentUpdate input now p).receipt_photo_url = none)
      ∧ (∀ u, input.receipt_photo_url = some (some u) →
          (applyPaymentUpdate input now p).receipt_photo_url = some u)
      ∧ (input.receipt_photo_url = none →
          (applyPaymentUpdate input now p).receipt_photo_url = p.receipt_photo_url) := by
  have hok : updatePayment db input now =
      Except.ok ({ db with
                   payments := db.payments.map
                     (fun x => if x.id == input.id then applyPaymentUpdate input now x else x) },
                 (applyPaymentUpdate input now p).toOut) := by
    simp [updatePayment, h]
  refine ⟨_, hok, ?_, ?_, ?_, ?_⟩
  · exact find?_map_upd (fun x => x.id == input.id) (applyPaymentUpdate input now)
      (fun x => rfl) db.payments p h
  · intro hu; simp [applyPaymentUpdate, hu]
  · intro u hu; simp [applyPaymentUpdate, hu]
  · intro hu; simp [applyPaymentUpdate, hu]

/-- Witness for C6: explicitly nulling the receipt of the sample payment,
whose stored receipt is non-null, stores null; omitting the field keeps the
stored value. -/
theorem updatePayment_receipt_three_way_witness :
    ((applyPaymentUpdate ⟨10, none, none, none, none, some none⟩ 9 samplePayment).receipt_photo_url
        = none)
    ∧ ((applyPaymentUpdate ⟨10, none, none, none, none, none⟩ 9 samplePayment).receipt_photo_url
        = some "r")
    ∧ samplePayment.receipt_photo_url = some "r" := by
  obtain ⟨-, -, -, hnull, -, -⟩ :=
    updatePayment_receipt_three_way sampleDB ⟨10, none, none, none, none, some none⟩ 9
      samplePayment (by decide)
  obtain ⟨-, -, -, -, -, homit⟩ :=
    updatePayment_receipt_three_way sampleDB ⟨10, none, none, none, none, none⟩ 9
      samplePayment (by decide)
  exact ⟨hnull rfl, (homit rfl).trans rfl, rfl⟩

/-- C7: for a valid citizen-admin pair, creating a payment with a positive
amount of at most two decimal places (carried in cents) and re-reading it
through the query layer yields the input amount to two-decimal precision,
despite the decimal-string storage representation. -/
theorem createPayment_amount_round_trip
    (db : DB) (input : CreatePaymentInput) (now : Nat) (citizen admin : User)
    (h1 : db.users.find? (fun u => u.id == input.user_id) = some citizen)
    (h2 : db.users.find? (fun u => u.id == input.recorded_by_admin_id) = some admin)
    (h3 : admin.role = Role.admin_kelurahan)
    (_hpos : 0 < input.amount) :
    ∃ db',
      createPayment db input now = Except.ok (db', (newPayment db input now).toOut)
      ∧ (newPayment db input now).toOut.amount = input.amount
      ∧ ∃ q ∈ getUserPayments db' ⟨input.user_id, none, none⟩,
          q.id = db.nextPaymentId ∧ q.amount = input.amount := by
  have hok : createPayment db input now =
      Except.ok ({ db with
                   payments := db.payments ++ [newPayment db input now]
                   nextPaymentId := db.nextPaymentId + 1 },
                 (newPayment db input now).toOut) := by
    simp [createPayment, h1, h2, h3]
  refine ⟨_, hok, parseDecCents_amountToDec input.amount, (newPayment db input now).toOut,
    ?_, rfl, parseDecCents_amountToDec input.amount⟩
  unfold getUserPayments
  apply List.mem_map_of_mem
  apply List.mem_filter.mpr
  refine ⟨List.mem_append_right _ (List.mem_singleton.mpr rfl), ?_⟩
  simp [newPayment]

/-- Witness for C7: recording a payment of 123456 cents (1234.56) for the
sample citizen by the sample admin and re-reading the citizen's payments
yields the amount 123456 cents back. -/
theorem createPayment_amount_round_trip_witness :
    ∃ db',
      createPayment sampleDB ⟨2, 123456, 3, 2, 2024, none, 1⟩ 4
          = Except.ok (db', (newPayment sampleDB ⟨2, 123456, 3, 2, 2024, none, 1⟩ 4).toOut)
      ∧ ∃ q ∈ getUserPayments db' ⟨2, none, none⟩, q.id = 11 ∧ q.amount = 123456 := by
  obtain ⟨db', hok, -, q, hq, hid, hamt⟩ :=
    createPayment_amount_round_trip sampleDB ⟨2, 123456, 3, 2, 2024, none, 1⟩ 4
      sampleCitizen sampleAdmin (by decide) (by decide) rfl (by decide)
  exact ⟨db', hok, q, hq, hid, hamt⟩

/-- C9: the administrative views are unfiltered: getAllPayments returns
every payment row, and getAllDisputes, whose SQL query inner-joins the
users and payments tables, returns every dispute row on any state with
referential integrity, i.e. whose disputes all reference an existing user
and an existing payment. -/
theorem admin_views_unfiltered (db : DB) :
    getAllPayments db = db.payments.map Payment.toOut
    ∧ (∀ p ∈ db.payments, p.toOut ∈ getAllPayments db)
    ∧ ((∀ d ∈ db.disputes,
          db.users.any (fun u => u.id == d.user_id) = true
          ∧ db.payments.any (fun p => p.id == d.payment_id) = true) →
        getAllDisputes db = db.disputes) := by
  refine ⟨rfl, fun p hp => List.mem_map_of_mem Payment.toOut hp, ?_⟩
  intro h
  unfold getAllDisputes
  apply List.filter_eq_self.mpr
  intro d hd
  have := h d hd
  simp [this.1, this.2]

/-- Witness for C9: on the sample database, whose only dispute references
the sample citizen and the sample payment, both views return all rows. -/
theorem admin_views_unfiltered_witness :
    getAllPayments sampleDB = sampleDB.payments.map Payment.toOut
    ∧ getAllDisputes sampleDB = sampleDB.disputes := by
  refine ⟨(admin_views_unfiltered sampleDB).1, (admin_views_unfiltered sampleDB).2.2 ?_⟩
  decide

/-- C8: authenticate returns null when the username matches no stored user,
when the username matches but the password is not the one whose hash is
stored, when the username is empty (on a store whose usernames are all
nonempty, as boundary validation guarantees), and when the password is empty
(against a stored hash of a password of at least six characters, as boundary
validation guarantees); the username match is exact and case-sensitive, so
logging in as Alice returns null on a store whose usernames are all
alice. -/
theorem loginUser_null_cases :
    (∀ (users : List User) (input : LoginInput),
        (∀ u ∈ users, u.username ≠ input.username) → loginUser users input = none)
    ∧ (∀ (users : List User) (input : LoginInput) (u : User) (q : String),
        users.find? (fun x => x.username == input.username) = some u →
        u.password_hash = pwHash q → input.password ≠ q →
        loginUser users input = none)
    ∧ (∀ (users : List User) (pw : String),
        (∀ u ∈ users, u.username ≠ "") → loginUser users ⟨"", pw⟩ = none)
    ∧ (∀ (users : List User) (input : LoginInput) (u : User) (q : String),
        users.find? (fun x => x.username == input.username) = some u →
        u.password_hash = pwHash q → 6 ≤ q.length → input.password = "" →
        loginUser users input = none)
    ∧ (∀ (users : List User) (pw : String),
        (∀ u ∈ users, u.username = "alice") → loginUser users ⟨"Alice", pw⟩ = none) := by
  refine ⟨loginUser_none_of_no_user, loginUser_none_of_wrong_password, ?_, ?_, ?_⟩
  · intro users pw h
    exact loginUser_none_of_no_user users ⟨"", pw⟩ h
  · intro users input u q hf hh hlen hemp
    refine loginUser_none_of_wrong_password users input u q hf hh ?_
    intro hq
    rw [hemp] at hq
    rw [← hq] at hlen
    have hz : ("" : String).length = 0 := rfl
    omega
  · intro users pw h
    refine loginUser_none_of_no_user users ⟨"Alice", pw⟩ ?_
    intro u hu
    have hproj : ({ username := "Alice", password := pw } : LoginInput).username = "Alice" := rfl
    rw [h u hu, hproj]
    decide

/-- Witness for C8: on the sample store, an unknown username, a known
username with a wrong password, an empty username, and an empty password all
fail, and logging in as Alice against the stored username alice fails. -/
theorem loginUser_null_cases_witness :
    loginUser [sampleAdmin, sampleCitizen] ⟨"bob", "pw"⟩ = none
    ∧ loginUser [sampleAdmin, sampleCitizen] ⟨"alice", "wrongpw"⟩ = none
    ∧ loginUser [sampleAdmin, sampleCitizen] ⟨"", "pw"⟩ = none
    ∧ loginUser [sampleAdmin, sampleCitizen] ⟨"alice", ""⟩ = none
    ∧ loginUser [sampleCitizen] ⟨"Alice", "warga123"⟩ = none :=
  ⟨loginUser_null_cases.1 [sampleAdmin, sampleCitizen] ⟨"bob", "pw"⟩ (by decide),
   loginUser_null_cases.2.1 [sampleAdmin, sampleCitizen] ⟨"alice", "wrongpw"⟩
     sampleCitizen "warga123" (by decide) rfl (by decide),
   loginUser_null_cases.2.2.1 [sampleAdmin, sampleCitizen] "pw" (by decide),
   loginUser_null_cases.2.2.2.1 [sampleAdmin, sampleCitizen] ⟨"alice", ""⟩
     sampleCitizen "warga123" (by decide) rfl (by decide) rfl,
   loginUser_null_cases.2.2.2.2 [sampleCitizen] "warga123" (by decide)⟩

/-- C10: on a successful authentication, the User value returned to the
caller carries the stored password_hash verbatim, contrary to the source
comment claiming the hash is excluded from the returned type. -/
theorem loginUser_exposes_password_hash
    (users : List User) (input : LoginInput) (u r : User)
    (hf : users.find? (fun x => x.username == input.username) = some u)
    (hr : loginUser users input = some r) :
    r.password_hash = u.password_hash := by
  cases hb : pwVerify input.password u.password_hash with
  | true =>
    simp [loginUser, hf, hb] at hr
    subst hr
    rfl
  | false =>
    simp [loginUser, hf, hb] at hr

/-- Witness for C10: a successful login of the sample citizen returns a
record whose password_hash is the stored hash. -/
theorem loginUser_exposes_password_hash_witness :
    loginUser [sampleAdmin, sampleCitizen] ⟨"alice", "warga123"⟩ = some sampleCitizen
    ∧ sampleCitizen.password_hash = pwHash "warga123" := by
  have hr : loginUser [sampleAdmin, sampleCitizen] ⟨"alice", "warga123"⟩ = some sampleCitizen := by
    decide
  refine ⟨hr, ?_⟩
  exact (loginUser_exposes_password_hash [sampleAdmin, sampleCitizen] ⟨"alice", "warga123"⟩
    sampleCitizen sampleCitizen (by decide) hr).trans rfl

end WasteFee
